import Mathlib

/-!
Shallow embedding of the incident lifecycle and correlation engine of the
Network-a-Sensor-monitor repository (src/src/utils/incident_detector.py,
src/src/models/database.py, src/src/monitor.py), together with proofs of
the spec's testable properties.

Modelling conventions:
* timestamps are natural numbers counting whole seconds (`datetime.utcnow()`
  readings); `duration_seconds = int((end - start).total_seconds())` becomes
  integer subtraction;
* the SQLAlchemy store is a list of `IncidentRec` in insertion order with a
  monotone id counter (sqlite autoincrement primary key);
* the `active_incidents` python dict is an insertion-ordered association list;
* python float percentages and float division are modelled over `Rat`;
* a returned python dict that may omit a key is modelled with `Option` fields
  (`none` = key absent).
-/

namespace NetMon

/-- A row of the `incidents` table (src/src/models/schema.py, class Incident). -/
structure IncidentRec where
  id : Nat
  start_time : Nat
  end_time : Option Nat := none
  duration_seconds : Option Int := none
  incident_type : String
  severity : String
  affected_targets : List String
  description : String
  probable_cause : Option String := none
  is_resolved : Bool
deriving Repr, DecidableEq

/-- An incident descriptor as returned by the classifier functions
(the python dicts built in check_wifi_status / check_network_connectivity /
check_sensor_status). -/
structure Descriptor where
  incident_type : String
  severity : String
  description : String
  affected_targets : List String
  probable_cause : Option String := none
deriving Repr, DecidableEq

/-- State of `IncidentDetector` plus its database handle:
`active_incidents` is the key-to-id dict, `store` the persisted incident rows,
`nextId` the autoincrement counter. -/
structure DetectorState where
  active_incidents : List (String × Nat)
  store : List IncidentRec
  nextId : Nat
deriving Repr, DecidableEq

/-- Fresh detector over an empty database. -/
def initialState : DetectorState := { active_incidents := [], store := [], nextId := 0 }

/-- Python dict lookup on an insertion-ordered association list. -/
def alookup {β : Type} : List (String × β) → String → Option β
  | [], _ => none
  | (k, v) :: rest, key => if k = key then some v else alookup rest key

/-- Python `sorted` on a list of strings (lexicographic). -/
def sortedStrings (l : List String) : List String :=
  List.insertionSort (fun a b => a ≤ b) l

/-- The escaping `json.dumps` applies to a string (backslash and quote). -/
def jsonEscape (s : String) : String :=
  String.join (s.toList.map fun c =>
    if c = '\\' then "\\\\" else if c = '"' then "\\\"" else String.singleton c)

/-- `json.dumps` of a list of strings (default separators). -/
def jsonDumpsStrList (l : List String) : String :=
  "[" ++ String.intercalate ", " (l.map fun s => "\"" ++ jsonEscape s ++ "\"") ++ "]"

/-- The dedup key
`f"{incident_data['incident_type']}:{json.dumps(sorted(incident_data['affected_targets']))}"`
(incident_detector.py line 147). -/
def incidentKey (d : Descriptor) : String :=
  d.incident_type ++ ":" ++ jsonDumpsStrList (sortedStrings d.affected_targets)

/-- The row persisted by `db.add_incident(...)` inside `process_incident`:
`start_time = now`, `is_resolved = False`, targets as given (unsorted),
id from the autoincrement counter. -/
def newIncidentRec (i : Nat) (now : Nat) (d : Descriptor) : IncidentRec :=
  { id := i, start_time := now,
    incident_type := d.incident_type, severity := d.severity,
    affected_targets := d.affected_targets, description := d.description,
    probable_cause := d.probable_cause, is_resolved := false }

/-- `IncidentDetector.process_incident` (incident_detector.py lines 137-167):
open-or-continue. Returns the new state and the returned incident id. -/
def process_incident (st : DetectorState) (now : Nat) (d : Descriptor) :
    DetectorState × Nat :=
  match alookup st.active_incidents (incidentKey d) with
  | some incident_id => (st, incident_id)
  | none =>
      ({ active_incidents := st.active_incidents ++ [(incidentKey d, st.nextId)],
         store := st.store ++ [newIncidentRec st.nextId now d],
         nextId := st.nextId + 1 },
       st.nextId)

/-- `Database.update_incident`: `session.query(Incident).filter(id==).first()`
then setattr on the found row; a no-op when no row has that id. -/
def updateFirst (f : IncidentRec → IncidentRec) (i : Nat) :
    List IncidentRec → List IncidentRec
  | [] => []
  | r :: rs => if r.id = i then f r :: rs else r :: updateFirst f i rs

/-- `IncidentDetector.resolve_incident` (incident_detector.py lines 169-203):
no-op for an unregistered key; otherwise re-reads the row via
`get_active_incidents()` (unresolved rows), sets `end_time`/`duration_seconds`/
`is_resolved` when found, or only `end_time`/`is_resolved` on the degraded
path, and deletes the key from the dict. -/
def resolve_incident (st : DetectorState) (now : Nat) (key : String) :
    DetectorState :=
  match alookup st.active_incidents key with
  | none => st
  | some incident_id =>
      let activeRows := st.store.filter (fun r => !r.is_resolved)
      match activeRows.find? (fun r => r.id == incident_id) with
      | some inc =>
          { st with
            store := updateFirst
              (fun r => { r with
                end_time := some now,
                duration_seconds := some ((now : Int) - (inc.start_time : Int)),
                is_resolved := true })
              incident_id st.store,
            active_incidents := st.active_incidents.filter (fun kv => kv.1 != key) }
      | none =>
          { st with
            store := updateFirst
              (fun r => { r with end_time := some now, is_resolved := true })
              incident_id st.store,
            active_incidents := st.active_incidents.filter (fun kv => kv.1 != key) }

/-- Truthiness of `current_states.get(key)`:
`key not in current_states or not current_states[key]` marks the key stale. -/
def isLive (current_states : List (String × Bool)) (k : String) : Bool :=
  match alookup current_states k with
  | some b => b
  | none => false

/-- `IncidentDetector.check_and_resolve_incidents` (lines 205-220): collect the
stale keys from a snapshot of the dict's keys, then resolve each. -/
def check_and_resolve_incidents (st : DetectorState) (now : Nat)
    (current_states : List (String × Bool)) : DetectorState :=
  let to_resolve :=
    (st.active_incidents.map Prod.fst).filter (fun k => !isLive current_states k)
  to_resolve.foldl (fun s k => resolve_incident s now k) st

/-- `Database.cleanup_old_data` restricted to the incidents table: deletes rows
with `start_time < cutoff` regardless of resolution state. -/
def cleanup_old_data (st : DetectorState) (cutoff : Nat) : DetectorState :=
  { st with store := st.store.filter (fun r => !(decide (r.start_time < cutoff))) }

/-- WiFi snapshot fields consumed by `check_wifi_status`; `rssi` is optional
(the python code tests its truthiness, so `0` behaves like absent). -/
structure WifiData where
  interface : String
  is_connected : Bool
  rssi : Option Int := none
deriving Repr, DecidableEq

/-- `IncidentDetector.check_wifi_status` (lines 19-52). -/
def check_wifi_status (wifi_data : WifiData) (rssi_critical : Int) :
    Option Descriptor :=
  if !wifi_data.is_connected then
    some { incident_type := "wifi_outage", severity := "critical",
           description := "WiFi interface " ++ wifi_data.interface ++ " disconnected",
           affected_targets := [wifi_data.interface] }
  else
    match wifi_data.rssi with
    | some v =>
        if v ≠ 0 ∧ v < rssi_critical then
          some { incident_type := "wifi_degradation", severity := "warning",
                 description := "WiFi signal weak: " ++ toString v ++ " dBm",
                 affected_targets := [wifi_data.interface] }
        else none
    | none => none

/-- Ping result fields consumed by `check_network_connectivity`
(`is_reachable` read with `.get(..., False)`, `packet_loss` with default 0). -/
structure PingResultIn where
  target : String
  is_reachable : Bool
  packet_loss : Rat := 0
deriving Repr, DecidableEq

/-- `IncidentDetector.check_network_connectivity` (lines 54-99). -/
def check_network_connectivity (gateway_result : PingResultIn)
    (internet_results : List PingResultIn) : Option Descriptor :=
  let gateway_reachable := gateway_result.is_reachable
  let internet_reachable := internet_results.any (fun r => r.is_reachable)
  if !gateway_reachable then
    some { incident_type := "wifi_outage", severity := "critical",
           description := "Gateway " ++ gateway_result.target ++ " unreachable",
           affected_targets := [gateway_result.target] }
  else if gateway_reachable && !internet_reachable then
    some { incident_type := "internet_outage", severity := "warning",
           description := "Internet connectivity lost (gateway reachable)",
           affected_targets := internet_results.map (fun r => r.target) }
  else if gateway_result.packet_loss > 20 then
    some { incident_type := "wifi_degradation", severity := "warning",
           description := "High packet loss to gateway: "
             ++ toString gateway_result.packet_loss ++ "%",
           affected_targets := [gateway_result.target] }
  else none

/-- Sensor check fields consumed by `check_sensor_status`. -/
structure SensorCheckIn where
  sensor_name : String
  sensor_ip : String
  is_available : Bool
deriving Repr, DecidableEq

/-- `IncidentDetector.check_sensor_status` (lines 101-135). -/
def check_sensor_status (sensor_check : SensorCheckIn)
    (wifi_ok gateway_ok : Bool) : Option Descriptor :=
  if sensor_check.is_available then none
  else
    let correlated := !wifi_ok || !gateway_ok
    let probable_cause :=
      if correlated then
        "WiFi/network connectivity issue (correlated with WiFi/gateway outage)"
      else
        "Sensor-specific issue (WiFi and gateway are operational)"
    let severity := if correlated then "info" else "warning"
    some { incident_type := "sensor_outage", severity := severity,
           description := "Sensor \x27" ++ sensor_check.sensor_name ++ "\x27 ("
             ++ sensor_check.sensor_ip ++ ") unavailable",
           affected_targets := [sensor_check.sensor_name],
           probable_cause := some probable_cause }

/-- The outcome the spec's summary dicts report: python dict fields from
`analyze_incident_patterns`; `mtbf_seconds` is `Option` because the
zero-incident early return builds a dict without that key. -/
structure AnalysisResult where
  total_incidents : Nat
  by_type : List (String × Nat)
  by_severity : List (String × Nat)
  avg_duration_seconds : Rat
  total_downtime_seconds : Int
  most_affected_target : Option String
  mtbf_seconds : Option Rat
deriving Repr, DecidableEq

/-- `Database.get_incidents(start_time, end_time)`: rows with
`start_time <= row.start_time <= end_time`, ordered by `start_time`. -/
def get_incidents (store : List IncidentRec) (a b : Nat) : List IncidentRec :=
  List.insertionSort (fun r s => r.start_time ≤ s.start_time)
    ((store.filter (fun r => decide (a ≤ r.start_time))).filter
      (fun r => decide (r.start_time ≤ b)))

/-- `defaultdict(int)` increment, preserving first-insertion order like a
python dict. -/
def bump : List (String × Nat) → String → List (String × Nat)
  | [], k => [(k, 1)]
  | (k0, c) :: rest, k =>
      if k0 = k then (k0, c + 1) :: rest else (k0, c) :: bump rest k

/-- The `durations` list built by the analysis loop: `if incident.duration_seconds:`
is python truthiness, so both `None` and `0` are skipped. -/
def truthyDurations (incidents : List IncidentRec) : List Int :=
  incidents.foldl
    (fun ds r =>
      match r.duration_seconds with
      | some d => if d = 0 then ds else ds ++ [d]
      | none => ds)
    []

/-- `max(items, key=lambda x: x[1])[0]`: the first key of maximal count in
iteration order (python `max` keeps the earlier element on ties). -/
def firstArgmax : List (String × Nat) → Option String
  | [] => none
  | x :: xs => some (xs.foldl (fun best y => if best.2 < y.2 then y else best) x).1

/-- `IncidentDetector.analyze_incident_patterns` (lines 222-289). The
zero-incident branch returns the early dict, whose `mtbf_seconds` key does
not exist; in the other branch the source's `if incidents else 0` guard on
the MTBF expression is kept verbatim (it is vacuous there). -/
def analyze_incident_patterns (store : List IncidentRec)
    (start_time end_time : Nat) : AnalysisResult :=
  let incidents := get_incidents store start_time end_time
  if incidents.isEmpty then
    { total_incidents := 0, by_type := [], by_severity := [],
      avg_duration_seconds := 0, total_downtime_seconds := 0,
      most_affected_target := none, mtbf_seconds := none }
  else
    let durations := truthyDurations incidents
    { total_incidents := incidents.length,
      by_type := incidents.foldl (fun acc r => bump acc r.incident_type) [],
      by_severity := incidents.foldl (fun acc r => bump acc r.severity) [],
      avg_duration_seconds :=
        if durations.isEmpty then 0
        else (durations.sum : Rat) / (durations.length : Rat),
      total_downtime_seconds := durations.sum,
      most_affected_target :=
        firstArgmax (incidents.foldl
          (fun acc r => r.affected_targets.foldl bump acc) []),
      mtbf_seconds :=
        some (if incidents.isEmpty then 0
              else ((end_time : Rat) - (start_time : Rat)) / (incidents.length : Rat)) }

/-- Firing the same descriptor once per listed timestamp, collecting the
returned ids (N consecutive classifier firings handed to `process_incident`). -/
def fireTimes (d : Descriptor) : DetectorState → List Nat → DetectorState × List Nat
  | st, [] => (st, [])
  | st, t :: ts =>
      let p := process_incident st t d
      let q := fireTimes d p.1 ts
      (q.1, p.2 :: q.2)

/-- `process_incident` when `db.add_incident` may raise (src/monitor.py check
loops catch the exception). `db_ok = false` models the raise: it happens
before the dict insert on line 165, so the state at the raise point is
returned unchanged, and the returned id is `none`. -/
def process_incident_try (st : DetectorState) (now : Nat) (d : Descriptor)
    (db_ok : Bool) : Option Nat × DetectorState :=
  match alookup st.active_incidents (incidentKey d) with
  | some incident_id => (some incident_id, st)
  | none =>
      if db_ok then
        (some st.nextId,
         { active_incidents := st.active_incidents ++ [(incidentKey d, st.nextId)],
           store := st.store ++ [newIncidentRec st.nextId now d],
           nextId := st.nextId + 1 })
      else (none, st)

/-- The incident-handling tail of one `NetworkMonitorApp._monitor_wifi`
iteration (src/src/monitor.py lines 191-203): classify, then either
open-or-continue (with the persistence call possibly raising, caught by the
loop's `except`), or resolve the active wifi keys. -/
def monitor_wifi_step (st : DetectorState) (now : Nat) (wifi_data : WifiData)
    (rssi_critical : Int) (db_ok : Bool) : DetectorState :=
  match check_wifi_status wifi_data rssi_critical with
  | some d => (process_incident_try st now d db_ok).2
  | none =>
      ((st.active_incidents.map Prod.fst).filter
        (fun k => k.startsWith "wifi_outage:" || k.startsWith "wifi_degradation:")).foldl
        (fun s k => resolve_incident s now k) st

/-- Program counter of one thread running `process_incident` for a fixed
descriptor. The thread's atomic actions, at the granularity of the source
statements: the dict lookup (line 149), the internally locked
`db.add_incident` (line 156), the dict insert (line 165). No lock spans
them in the source. -/
inductive OpenPC where
  | atLookup
  | atInsertRecord
  | atInsertKey (my_id : Nat)
  | done (ret : Nat)
deriving Repr, DecidableEq

/-- One atomic action of a thread running `process_incident st now d`. -/
def openAction (d : Descriptor) (now : Nat) :
    DetectorState → OpenPC → DetectorState × OpenPC
  | st, .atLookup =>
      match alookup st.active_incidents (incidentKey d) with
      | some i => (st, .done i)
      | none => (st, .atInsertRecord)
  | st, .atInsertRecord =>
      ({ st with store := st.store ++ [newIncidentRec st.nextId now d],
                 nextId := st.nextId + 1 },
       .atInsertKey st.nextId)
  | st, .atInsertKey i =>
      ({ st with active_incidents := st.active_incidents ++ [(incidentKey d, i)] },
       .done i)
  | st, .done r => (st, .done r)

/-- Interleaved execution of two threads that both run `process_incident` for
the same descriptor: the schedule says which thread performs its next atomic
action (`true` = thread 1). Any boolean list is a legal schedule, so every
interleaving of the two threads is expressible. -/
def runSchedule (d : Descriptor) (now : Nat) :
    List Bool → DetectorState × OpenPC × OpenPC → DetectorState × OpenPC × OpenPC
  | [], s => s
  | b :: bs, (st, p1, p2) =>
      if b then
        let a := openAction d now st p1
        runSchedule d now bs (a.1, a.2, p2)
      else
        let a := openAction d now st p2
        runSchedule d now bs (a.1, p1, a.2)

/-- States reachable from a fresh detector through the lifecycle operations
(open-or-continue, close, reconcile) and the external retention cleanup,
with a monotone wall clock. -/
inductive Reach : Nat → DetectorState → Prop
  | init : Reach 0 initialState
  | openStep {t0 st} (t : Nat) (d : Descriptor) :
      Reach t0 st → t0 ≤ t → Reach t (process_incident st t d).1
  | closeStep {t0 st} (t : Nat) (key : String) :
      Reach t0 st → t0 ≤ t → Reach t (resolve_incident st t key)
  | reconcileStep {t0 st} (t : Nat) (cs : List (String × Bool)) :
      Reach t0 st → t0 ≤ t → Reach t (check_and_resolve_incidents st t cs)
  | cleanupStep {t0 st} (t cutoff : Nat) :
      Reach t0 st → t0 ≤ t → Reach t (cleanup_old_data st cutoff)

/-- Pairing discipline of a single stored row: resolution flags and the
duration arithmetic. -/
def RecordOk (r : IncidentRec) : Prop :=
  (r.is_resolved = true ↔ (r.end_time.isSome ∧ r.duration_seconds.isSome)) ∧
  (∀ e dur, r.end_time = some e → r.duration_seconds = some dur →
    dur = (e : Int) - (r.start_time : Int) ∧ r.start_time ≤ e)

/-- Structural well-formedness of the open-incident index against the store:
distinct keys (a python dict), distinct registered ids, distinct row ids
(primary key), and every registered id maps only to unresolved rows. -/
def WellFormedIndex (st : DetectorState) : Prop :=
  (st.active_incidents.map Prod.fst).Nodup ∧
  (st.active_incidents.map Prod.snd).Nodup ∧
  (st.store.map IncidentRec.id).Nodup ∧
  (∀ kv ∈ st.active_incidents, ∀ r ∈ st.store, r.id = kv.2 → r.is_resolved = false)

/-- Full inductive invariant of the lifecycle (proved preserved by every
reachable step). -/
def Inv (t : Nat) (st : DetectorState) : Prop :=
  WellFormedIndex st ∧
  (∀ kv ∈ st.active_incidents, kv.2 < st.nextId) ∧
  (∀ r ∈ st.store, r.id < st.nextId) ∧
  (∀ r ∈ st.store, r.start_time ≤ t) ∧
  (∀ r ∈ st.store, RecordOk r)

/-- The average duration the claim describes, modelled from the spec words:
mean of `duration_seconds` over exactly the resolved incidents in range. -/
def claimed_avg_duration (store : List IncidentRec) (a b : Nat) : Rat :=
  let resolvedRows := (get_incidents store a b).filter (fun r => r.is_resolved)
  let ds : List Int := resolvedRows.filterMap (fun r => r.duration_seconds)
  if ds.isEmpty then 0 else ((ds.sum : Int) : Rat) / ((ds.length : Nat) : Rat)

instance decWellFormedIndex (st : DetectorState) : Decidable (WellFormedIndex st) := by
  unfold WellFormedIndex
  infer_instance

/-! Concrete inputs used by the witness and counterexample theorems. -/

/-- The descriptor the WiFi classifier emits for a disconnected `wlan0`. -/
def d0 : Descriptor :=
  { incident_type := "wifi_outage", severity := "critical",
    description := "WiFi interface wlan0 disconnected",
    affected_targets := ["wlan0"] }

/-- State after opening `d0` once at time 0. -/
def st1a : DetectorState := (process_incident initialState 0 d0).1

/-- State after opening `d0` at time 5 and closing it at time 12. -/
def witSt : DetectorState :=
  resolve_incident (process_incident initialState 5 d0).1 12 (incidentKey d0)

/-- The single row of `witSt`. -/
def witRec : IncidentRec :=
  { id := 0, start_time := 5, end_time := some 12, duration_seconds := some 7,
    incident_type := "wifi_outage", severity := "critical",
    affected_targets := ["wlan0"],
    description := "WiFi interface wlan0 disconnected", is_resolved := true }

/-- Reconcile example: descriptor A of the spec scenario. -/
def c5dA : Descriptor :=
  { incident_type := "wifi_outage", severity := "critical", description := "A",
    affected_targets := ["a"] }

/-- Reconcile example: descriptor B. -/
def c5dB : Descriptor :=
  { incident_type := "internet_outage", severity := "warning", description := "B",
    affected_targets := ["b"] }

/-- Reconcile example: descriptor C. -/
def c5dC : Descriptor :=
  { incident_type := "sensor_outage", severity := "warning", description := "C",
    affected_targets := ["c"] }

/-- State with the three open keys A, B, C of the spec scenario. -/
def c5st : DetectorState :=
  (process_incident
    ((process_incident ((process_incident initialState 0 c5dA).1) 0 c5dB).1)
    0 c5dC).1

/-- Live-key set containing only B. -/
def c5live : List (String × Bool) := [(incidentKey c5dB, true)]

/-- The A row after the reconcile at time 20 closed it. -/
def c5recA : IncidentRec :=
  { id := 0, start_time := 0, end_time := some 20, duration_seconds := some 20,
    incident_type := "wifi_outage", severity := "critical",
    affected_targets := ["a"], description := "A", is_resolved := true }

/-- An unreachable gateway ping result. -/
def gwDown : PingResultIn := { target := "192.168.1.1", is_reachable := false }

/-- A reachable, lossless gateway ping result. -/
def gwUp : PingResultIn := { target := "192.168.1.1", is_reachable := true }

/-- An unreachable internet-target ping result. -/
def inetDown : PingResultIn := { target := "8.8.8.8", is_reachable := false }

/-- An unavailable sensor check. -/
def snDown : SensorCheckIn :=
  { sensor_name := "garage", sensor_ip := "192.168.1.50", is_available := false }

/-- A disconnected WiFi snapshot. -/
def wifiDown : WifiData := { interface := "wlan0", is_connected := false }

/-- An unresolved incident row starting at time `s` with id `i` (MTBF example). -/
def mtbfRec (i s : Nat) : IncidentRec :=
  { id := i, start_time := s, incident_type := "wifi_outage",
    severity := "critical", affected_targets := ["wlan0"],
    description := "gw down", is_resolved := false }

/-- Three incidents inside the range 0..3600 (the spec MTBF example). -/
def mtbfStore3 : List IncidentRec := [mtbfRec 0 100, mtbfRec 1 200, mtbfRec 2 300]

/-- Duration-aggregate counterexample: descriptor for sensor s1. -/
def c8d1 : Descriptor :=
  { incident_type := "sensor_outage", severity := "warning",
    description := "s1 down", affected_targets := ["s1"] }

/-- Duration-aggregate counterexample: descriptor for sensor s2. -/
def c8d2 : Descriptor :=
  { incident_type := "sensor_outage", severity := "warning",
    description := "s2 down", affected_targets := ["s2"] }

/-- Lifecycle-produced state holding two resolved incidents: s1 opened and
closed within the same second (duration 0) and s2 open for 10 seconds. -/
def c8st : DetectorState :=
  resolve_incident
    (process_incident
      (resolve_incident (process_incident initialState 0 c8d1).1 0 (incidentKey c8d1))
      0 c8d2).1
    10 (incidentKey c8d2)

/-- Descriptor both racing threads fire (gateway unreachable). -/
def d9 : Descriptor :=
  { incident_type := "wifi_outage", severity := "critical",
    description := "Gateway 192.168.1.1 unreachable",
    affected_targets := ["192.168.1.1"] }

/-- The interleaving in which both threads perform the dict lookup before
either persists: T1 lookup, T2 lookup, T1 add, T2 add, T1 insert key,
T2 insert key. -/
def raceResult : DetectorState × OpenPC × OpenPC :=
  runSchedule d9 0 [true, false, true, false, true, false]
    (initialState, .atLookup, .atLookup)

/-! Theorems. -/

/-- Running one thread's three atomic actions back to back is exactly
`process_incident`: the concurrency model refines the sequential code. -/
theorem openAction_sequential (st : DetectorState) (now : Nat) (d : Descriptor) :
    (openAction d now
      (openAction d now (openAction d now st .atLookup).1
        (openAction d now st .atLookup).2).1
      (openAction d now (openAction d now st .atLookup).1
        (openAction d now st .atLookup).2).2) =
    ((process_incident st now d).1, OpenPC.done (process_incident st now d).2) := by
  cases h : alookup st.active_incidents (incidentKey d) <;>
    simp [openAction, process_incident, h]

/-- C1. Idempotent continuation: when the dedup key of a descriptor is
already registered in the open-incident index, `process_incident` returns the
registered id and leaves the whole state (index and store) unchanged; hence
firing the same descriptor any number of times returns that id each time and
persists nothing new. -/
theorem process_incident_idempotent_continuation (st : DetectorState)
    (d : Descriptor) (i : Nat) (t : Nat)
    (h : alookup st.active_incidents (incidentKey d) = some i) :
    process_incident st t d = (st, i) ∧
    ∀ ts : List Nat, fireTimes d st ts = (st, ts.map fun _ => i) := by
  have h1 : ∀ t2 : Nat, process_incident st t2 d = (st, i) := by
    intro t2; unfold process_incident; rw [h]
  refine ⟨h1 t, ?_⟩
  intro ts
  induction ts with
  | nil => rfl
  | cons t2 ts ih => simp [fireTimes, h1 t2, ih]

/-- Witness for C1: after opening `d0` once, re-firing it at time 7 and then
three more times returns id 0 every time and leaves the state untouched. -/
theorem process_incident_idempotent_witness :
    process_incident st1a 7 d0 = (st1a, 0) ∧
    fireTimes d0 st1a [1, 2, 3] = (st1a, [0, 0, 0]) := by
  have h := process_incident_idempotent_continuation st1a d0 0 7 (by rfl)
  exact ⟨h.1, h.2 [1, 2, 3]⟩

/-- C4. Network-connectivity classifier priority: the rules fire in order
gateway-unreachable, no-internet, packet-loss, none, and only the first
matching rule fires. -/
theorem network_classifier_priority (gw : PingResultIn)
    (its : List PingResultIn) :
    (gw.is_reachable = false →
      check_network_connectivity gw its =
        some { incident_type := "wifi_outage", severity := "critical",
               description := "Gateway " ++ gw.target ++ " unreachable",
               affected_targets := [gw.target] }) ∧
    (gw.is_reachable = true → (∀ r ∈ its, r.is_reachable = false) →
      check_network_connectivity gw its =
        some { incident_type := "internet_outage", severity := "warning",
               description := "Internet connectivity lost (gateway reachable)",
               affected_targets := its.map fun r => r.target }) ∧
    (gw.is_reachable = true → (∃ r ∈ its, r.is_reachable = true) →
      20 < gw.packet_loss →
      check_network_connectivity gw its =
        some { incident_type := "wifi_degradation", severity := "warning",
               description := "High packet loss to gateway: "
                 ++ toString gw.packet_loss ++ "%",
               affected_targets := [gw.target] }) ∧
    (gw.is_reachable = true → (∃ r ∈ its, r.is_reachable = true) →
      gw.packet_loss ≤ 20 →
      check_network_connectivity gw its = none) := by
  refine ⟨?_, ?_, ?_, ?_⟩
  · intro h
    simp [check_network_connectivity, h]
  · intro h1 h2
    have hany : its.any (fun r => r.is_reachable) = false := by
      rw [List.any_eq_false]
      intro r hr; simp [h2 r hr]
    simp [check_network_connectivity, h1, hany]
  · intro h1 h2 h3
    have hany : its.any (fun r => r.is_reachable) = true := by
      rw [List.any_eq_true]
      obtain ⟨r, hr, hre⟩ := h2
      exact ⟨r, hr, hre⟩
    simp [check_network_connectivity, h1, hany, h3]
  · intro h1 h2 h3
    have hany : its.any (fun r => r.is_reachable) = true := by
      rw [List.any_eq_true]
      obtain ⟨r, hr, hre⟩ := h2
      exact ⟨r, hr, hre⟩
    simp [check_network_connectivity, h1, hany, not_lt.mpr h3]

/-- Witness for C4: gateway and the internet target both unreachable yields
`wifi_outage`, not `internet_outage` (the spec's priority test). -/
theorem network_classifier_priority_witness :
    check_network_connectivity gwDown [inetDown] =
      some { incident_type := "wifi_outage", severity := "critical",
             description := "Gateway 192.168.1.1 unreachable",
             affected_targets := ["192.168.1.1"] } := by
  have h := (network_classifier_priority gwDown [inetDown]).1 rfl
  simpa using h

/-- C10. With a reachable gateway and an empty internet-target list, the
no-reachable-internet rule fires vacuously: an `internet_outage`/`warning`
descriptor with an empty affected-target list, not "no incident". -/
theorem internet_outage_empty_targets (gw : PingResultIn)
    (h : gw.is_reachable = true) :
    check_network_connectivity gw [] =
      some { incident_type := "internet_outage", severity := "warning",
             description := "Internet connectivity lost (gateway reachable)",
             affected_targets := ([] : List String) } := by
  simp [check_network_connectivity, h]

/-- Witness for C10 at a concrete reachable gateway. -/
theorem internet_outage_empty_targets_witness :
    check_network_connectivity gwUp [] =
      some { incident_type := "internet_outage", severity := "warning",
             description := "Internet connectivity lost (gateway reachable)",
             affected_targets := ([] : List String) } :=
  internet_outage_empty_targets gwUp rfl

/-- C7. Sensor correlation: available sensor gives no incident; unavailable
sensor gives `sensor_outage` with severity `info` and the correlation cause
when WiFi or the gateway is down, and severity `warning` with the
sensor-specific cause when both are up. -/
theorem sensor_outage_correlation (sc : SensorCheckIn)
    (wifi_ok gateway_ok : Bool) :
    (sc.is_available = true →
      check_sensor_status sc wifi_ok gateway_ok = none) ∧
    (sc.is_available = false → (wifi_ok = false ∨ gateway_ok = false) →
      check_sensor_status sc wifi_ok gateway_ok =
        some { incident_type := "sensor_outage", severity := "info",
               description := "Sensor \x27" ++ sc.sensor_name ++ "\x27 ("
                 ++ sc.sensor_ip ++ ") unavailable",
               affected_targets := [sc.sensor_name],
               probable_cause := some "WiFi/network connectivity issue (correlated with WiFi/gateway outage)" }) ∧
    (sc.is_available = false → wifi_ok = true → gateway_ok = true →
      check_sensor_status sc wifi_ok gateway_ok =
        some { incident_type := "sensor_outage", severity := "warning",
               description := "Sensor \x27" ++ sc.sensor_name ++ "\x27 ("
                 ++ sc.sensor_ip ++ ") unavailable",
               affected_targets := [sc.sensor_name],
               probable_cause := some "Sensor-specific issue (WiFi and gateway are operational)" }) := by
  refine ⟨?_, ?_, ?_⟩
  · intro h
    simp [check_sensor_status, h]
  · intro h1 h2
    rcases h2 with h2 | h2 <;> simp [check_sensor_status, h1, h2]
  · intro h1 h2 h3
    simp [check_sensor_status, h1, h2, h3]

/-- Witness for C7: an unavailable sensor is `info`/correlated when WiFi is
down and `warning`/sensor-specific when the network is up. -/
theorem sensor_outage_correlation_witness :
    check_sensor_status snDown false true =
      some { incident_type := "sensor_outage", severity := "info",
             description := "Sensor \x27garage\x27 (192.168.1.50) unavailable",
             affected_targets := ["garage"],
             probable_cause := some "WiFi/network connectivity issue (correlated with WiFi/gateway outage)" } ∧
    check_sensor_status snDown true true =
      some { incident_type := "sensor_outage", severity := "warning",
             description := "Sensor \x27garage\x27 (192.168.1.50) unavailable",
             affected_targets := ["garage"],
             probable_cause := some "Sensor-specific issue (WiFi and gateway are operational)" } := by
  constructor
  · have h := (sensor_outage_correlation snDown false true).2.1 rfl (Or.inl rfl)
    simpa using h
  · have h := (sensor_outage_correlation snDown true true).2.2 rfl rfl rfl
    simpa using h

/-- C6. Atomicity of a failed open: when `db.add_incident` raises while the
key is unregistered, the raise happens before the index insert, so the state
(in particular the index) is unchanged; the monitor loop catches the error
and goes on; and a later iteration re-attempts and succeeds in opening. -/
theorem failed_open_leaves_index_unchanged (st : DetectorState) (t : Nat)
    (d : Descriptor)
    (h : alookup st.active_incidents (incidentKey d) = none) :
    process_incident_try st t d false = (none, st) ∧
    (∀ wifi rssi_critical,
      check_wifi_status wifi rssi_critical = some d →
      monitor_wifi_step st t wifi rssi_critical false = st) ∧
    (∀ t2, process_incident_try st t2 d true =
        (some st.nextId, (process_incident st t2 d).1) ∧
      (process_incident st t2 d).1.store.length = st.store.length + 1) := by
  have h0 : ∀ t2, process_incident_try st t2 d false = (none, st) := by
    intro t2; unfold process_incident_try; rw [h]; rfl
  refine ⟨h0 t, ?_, ?_⟩
  · intro wifi rssi_critical hc
    unfold monitor_wifi_step
    rw [hc]
    show (process_incident_try st t d false).2 = st
    rw [h0 t]
  · intro t2
    constructor
    · unfold process_incident_try process_incident
      rw [h]
      rfl
    · unfold process_incident
      rw [h]
      simp

/-- Witness for C6: a failed open of the disconnected-WiFi incident on a fresh
detector leaves the state untouched and the monitor iteration returns. -/
theorem failed_open_witness :
    process_incident_try initialState 3 d0 false = (none, initialState) ∧
    monitor_wifi_step initialState 3 wifiDown (-80) false = initialState := by
  have h := failed_open_leaves_index_unchanged initialState 3 d0 rfl
  exact ⟨h.1, h.2.1 wifiDown (-80) rfl⟩

/-- C3 (bug evidence). For a range with zero incidents the analysis dict has
no `mtbf_seconds` key at all (modelled as `none`) instead of the promised 0,
while in the nonempty case MTBF is range length over incident count: 3
incidents in a 3600-second range give 1200. -/
theorem mtbf_key_missing_on_empty_range :
    (analyze_incident_patterns [] 0 3600).mtbf_seconds = none ∧
    (analyze_incident_patterns mtbfStore3 0 3600).total_incidents = 3 ∧
    (analyze_incident_patterns mtbfStore3 0 3600).mtbf_seconds = some 1200 := by
  refine ⟨rfl, rfl, ?_⟩
  show some ((((3600 : Nat) : Rat) - ((0 : Nat) : Rat)) / (((3 : Nat)) : Rat))
    = some (1200 : Rat)
  norm_num

/-- C9 (bug evidence). In the interleaving where both threads of
`process_incident` perform the index lookup before either inserts, both
threads persist a fresh open record for the same dedup key: the store ends
with two open rows for `d9` and the index with a duplicated key, while a
sequential double fire persists exactly one row. -/
theorem concurrent_open_both_persist :
    raceResult.1.store.length = 2 ∧
    raceResult.1.store.map (fun r => r.incident_type)
      = [d9.incident_type, d9.incident_type] ∧
    raceResult.1.store.map (fun r => r.affected_targets)
      = [d9.affected_targets, d9.affected_targets] ∧
    raceResult.1.store.map (fun r => r.is_resolved) = [false, false] ∧
    raceResult.1.active_incidents.map Prod.fst
      = [incidentKey d9, incidentKey d9] ∧
    raceResult.2.1 = OpenPC.done 0 ∧ raceResult.2.2 = OpenPC.done 1 ∧
    (fireTimes d9 initialState [0, 0]).1.store.length = 1 := by
  decide

/-- C8 (counterexample). The store of `c8st` holds exactly two resolved
incidents with durations 0 and 10; the code's average over the range 0..100
is 10 (the zero duration is dropped by truthiness) while the average over
exactly the resolved incidents, as the claim states it, is 5. -/
theorem duration_aggregates_counterexample :
    c8st.store.map (fun r => r.is_resolved) = [true, true] ∧
    c8st.store.map (fun r => r.duration_seconds) = [some 0, some 10] ∧
    (analyze_incident_patterns c8st.store 0 100).avg_duration_seconds = 10 ∧
    claimed_avg_duration c8st.store 0 100 = 5 ∧
    (analyze_incident_patterns c8st.store 0 100).avg_duration_seconds ≠
      claimed_avg_duration c8st.store 0 100 := by
  have hA : (analyze_incident_patterns c8st.store 0 100).avg_duration_seconds
      = 10 := by
    show (((10 : Int)) : Rat) / (((1 : Nat)) : Rat) = 10
    norm_num
  have hB : claimed_avg_duration c8st.store 0 100 = 5 := by
    show (((10 : Int)) : Rat) / (((2 : Nat)) : Rat) = 5
    norm_num
  refine ⟨by decide, by decide, hA, hB, ?_⟩
  rw [hA, hB]
  norm_num

/-- A key that fails to look up is not among the stored keys. -/
theorem alookup_eq_none {β : Type} (l : List (String × β)) (k : String) :
    alookup l k = none ↔ k ∉ l.map Prod.fst := by
  induction l with
  | nil => simp [alookup]
  | cons kv rest ih =>
      obtain ⟨k0, v⟩ := kv
      by_cases hk : k0 = k
      · subst hk
        simp [alookup]
      · rw [alookup, if_neg hk, ih, List.map_cons, List.mem_cons]
        constructor
        · intro h hor
          rcases hor with he | hm
          · exact hk he.symm
          · exact h hm
        · intro h hm
          exact h (Or.inr hm)

/-- A successful lookup exhibits a stored pair. -/
theorem alookup_mem {β : Type} {l : List (String × β)} {k : String} {v : β}
    (h : alookup l k = some v) : (k, v) ∈ l := by
  induction l with
  | nil => simp [alookup] at h
  | cons kv rest ih =>
      obtain ⟨k0, v0⟩ := kv
      by_cases hk : k0 = k
      · subst hk
        simp [alookup] at h
        simp [h]
      · rw [alookup, if_neg hk] at h
        exact List.mem_cons_of_mem _ (ih h)

/-- With distinct keys, membership determines the lookup result. -/
theorem alookup_of_mem {β : Type} {l : List (String × β)} {kv : String × β}
    (hnd : (l.map Prod.fst).Nodup) (h : kv ∈ l) :
    alookup l kv.1 = some kv.2 := by
  induction l with
  | nil => cases h
  | cons kv0 rest ih =>
      rw [List.map_cons, List.nodup_cons] at hnd
      obtain ⟨hh, ht⟩ := hnd
      rcases List.mem_cons.mp h with h1 | h1
      · subst h1
        rw [alookup, if_pos rfl]
      · have hne : kv0.1 ≠ kv.1 := by
          intro he
          exact hh (he ▸ List.mem_map_of_mem Prod.fst h1)
        rw [alookup, if_neg hne]
        exact ih ht h1

/-- Members of an updated store are either the updated image of a row with
the target id or pre-existing rows. -/
theorem mem_updateFirst {f : IncidentRec → IncidentRec} {i : Nat}
    {l : List IncidentRec} {r : IncidentRec} (h : r ∈ updateFirst f i l) :
    (∃ r0 ∈ l, r0.id = i ∧ r = f r0) ∨ r ∈ l := by
  induction l with
  | nil => simp [updateFirst] at h
  | cons a t ih =>
      by_cases ha : a.id = i
      · rw [updateFirst, if_pos ha] at h
        rcases List.mem_cons.mp h with h1 | h1
        · exact Or.inl ⟨a, List.mem_cons_self a t, ha, h1⟩
        · exact Or.inr (List.mem_cons_of_mem _ h1)
      · rw [updateFirst, if_neg ha] at h
        rcases List.mem_cons.mp h with h1 | h1
        · exact Or.inr (h1 ▸ List.mem_cons_self a t)
        · rcases ih h1 with ⟨r0, hr0, hid, he⟩ | hm
          · exact Or.inl ⟨r0, List.mem_cons_of_mem _ hr0, hid, he⟩
          · exact Or.inr (List.mem_cons_of_mem _ hm)

/-- An id-preserving update keeps the id column of the store. -/
theorem updateFirst_map_id {f : IncidentRec → IncidentRec}
    (hf : ∀ x, (f x).id = x.id) (i : Nat) (l : List IncidentRec) :
    (updateFirst f i l).map IncidentRec.id = l.map IncidentRec.id := by
  induction l with
  | nil => rfl
  | cons a t ih =>
      by_cases ha : a.id = i
      · rw [updateFirst, if_pos ha]
        simp [hf, ih]
      · rw [updateFirst, if_neg ha]
        simp [ih]

/-- Rows with a different id survive an update untouched. -/
theorem mem_updateFirst_of_ne {f : IncidentRec → IncidentRec} {i : Nat}
    {l : List IncidentRec} {r : IncidentRec} (h : r ∈ l) (hne : r.id ≠ i) :
    r ∈ updateFirst f i l := by
  induction l with
  | nil => cases h
  | cons a t ih =>
      rcases List.mem_cons.mp h with h1 | h1
      · subst h1
        rw [updateFirst, if_neg hne]
        exact List.mem_cons_self _ _
      · by_cases ha : a.id = i
        · rw [updateFirst, if_pos ha]
          exact List.mem_cons_of_mem _ h1
        · rw [updateFirst, if_neg ha]
          exact List.mem_cons_of_mem _ (ih h1)

/-- Updating an id that no row carries is a no-op (the python
`update_incident` found nothing and changed nothing). -/
theorem updateFirst_eq_self {f : IncidentRec → IncidentRec} {i : Nat}
    {l : List IncidentRec} (h : ∀ r ∈ l, r.id ≠ i) : updateFirst f i l = l := by
  induction l with
  | nil => rfl
  | cons a t ih =>
      rw [updateFirst, if_neg (h a (List.mem_cons_self a t))]
      rw [ih (fun r hr => h r (List.mem_cons_of_mem _ hr))]

/-- With distinct row ids, any member of the updated store carrying the
target id is the updated image of the unique original row with that id. -/
theorem mem_updateFirst_of_id {f : IncidentRec → IncidentRec}
    {i : Nat} {l : List IncidentRec}
    {r : IncidentRec} (hnd : (l.map IncidentRec.id).Nodup)
    (h : r ∈ updateFirst f i l) (hr : r.id = i) :
    ∃ r0, r0 ∈ l ∧ r0.id = i ∧ r = f r0 := by
  induction l with
  | nil => simp [updateFirst] at h
  | cons a t ih =>
      rw [List.map_cons, List.nodup_cons] at hnd
      obtain ⟨ha_nin, hnd_t⟩ := hnd
      by_cases ha : a.id = i
      · rw [updateFirst, if_pos ha] at h
        rcases List.mem_cons.mp h with h1 | h1
        · exact ⟨a, List.mem_cons_self a t, ha, h1⟩
        · exfalso
          apply ha_nin
          rw [ha, ← hr]
          exact List.mem_map_of_mem IncidentRec.id h1
      · rw [updateFirst, if_neg ha] at h
        rcases List.mem_cons.mp h with h1 | h1
        · exact absurd (h1 ▸ hr) ha
        · obtain ⟨r0, hr0, hid, he⟩ := ih hnd_t h1
          exact ⟨r0, List.mem_cons_of_mem _ hr0, hid, he⟩

/-- Filtering preserves distinctness of a projected column. -/
theorem nodup_map_filter {α β : Type} (f : α → β) (p : α → Bool)
    {l : List α} (h : (l.map f).Nodup) : ((l.filter p).map f).Nodup :=
  h.sublist ((List.filter_sublist l).map f)

/-- Closing an unregistered key is a no-op. -/
theorem resolve_incident_eq_none {st : DetectorState} {t : Nat} {k : String}
    (h : alookup st.active_incidents k = none) :
    resolve_incident st t k = st := by
  unfold resolve_incident
  rw [h]

/-- Closing a registered key whose row is found among the unresolved rows
writes end time, duration and the resolved flag, and drops the key. -/
theorem resolve_incident_eq_found {st : DetectorState} {t : Nat} {k : String}
    {i : Nat} {inc : IncidentRec}
    (h : alookup st.active_incidents k = some i)
    (hf : (st.store.filter (fun r => !r.is_resolved)).find?
      (fun r => r.id == i) = some inc) :
    resolve_incident st t k =
      { st with
        store := updateFirst
          (fun r => { r with
            end_time := some t,
            duration_seconds := some ((t : Int) - (inc.start_time : Int)),
            is_resolved := true }) i st.store,
        active_incidents :=
          st.active_incidents.filter (fun kv => kv.1 != k) } := by
  unfold resolve_incident
  rw [h]
  dsimp only
  rw [hf]

/-- Closing a registered key whose row is missing from the unresolved rows
takes the degraded path: end time and resolved flag only, key dropped. -/
theorem resolve_incident_eq_missing {st : DetectorState} {t : Nat} {k : String}
    {i : Nat}
    (h : alookup st.active_incidents k = some i)
    (hf : (st.store.filter (fun r => !r.is_resolved)).find?
      (fun r => r.id == i) = none) :
    resolve_incident st t k =
      { st with
        store := updateFirst
          (fun r => { r with end_time := some t, is_resolved := true })
          i st.store,
        active_incidents :=
          st.active_incidents.filter (fun kv => kv.1 != k) } := by
  unfold resolve_incident
  rw [h]
  dsimp only
  rw [hf]

/-- When the registered row is not found among the unresolved rows and every
registered id maps only to unresolved rows, no row carries the id at all. -/
theorem no_row_of_find_none {st : DetectorState} {k : String} {i : Nat}
    (hD : ∀ kv ∈ st.active_incidents, ∀ r ∈ st.store,
      r.id = kv.2 → r.is_resolved = false)
    (hk : alookup st.active_incidents k = some i)
    (hf : (st.store.filter (fun r => !r.is_resolved)).find?
      (fun r => r.id == i) = none) :
    ∀ r ∈ st.store, r.id ≠ i := by
  intro r hr he
  have hres : r.is_resolved = false := hD (k, i) (alookup_mem hk) r hr he
  have hmem : r ∈ st.store.filter (fun r => !r.is_resolved) :=
    List.mem_filter.mpr ⟨hr, by simp [hres]⟩
  have hfr := List.find?_eq_none.mp hf r hmem
  simp [he] at hfr

/-- The index after a close is the old index with the key filtered out. -/
theorem resolve_active (st : DetectorState) (t : Nat) (k : String) :
    (resolve_incident st t k).active_incidents
      = st.active_incidents.filter (fun kv => kv.1 != k) := by
  cases halk : alookup st.active_incidents k with
  | none =>
      rw [resolve_incident_eq_none halk]
      have hk := (alookup_eq_none st.active_incidents k).mp halk
      symm
      apply List.filter_eq_self.mpr
      intro kv hkv
      simp only [bne_iff_ne, ne_eq]
      intro he
      exact hk (he ▸ List.mem_map_of_mem Prod.fst hkv)
  | some i =>
      cases hf : (st.store.filter (fun r => !r.is_resolved)).find?
          (fun r => r.id == i) with
      | some inc => rw [resolve_incident_eq_found halk hf]
      | none => rw [resolve_incident_eq_missing halk hf]

/-- Closing a key preserves structural well-formedness of index and store. -/
theorem wf_resolve {st : DetectorState} (h : WellFormedIndex st)
    (t : Nat) (k : String) : WellFormedIndex (resolve_incident st t k) := by
  obtain ⟨hA, hB, hC, hD⟩ := h
  cases halk : alookup st.active_incidents k with
  | none =>
      rw [resolve_incident_eq_none halk]
      exact ⟨hA, hB, hC, hD⟩
  | some i =>
      have hmemk : (k, i) ∈ st.active_incidents := alookup_mem halk
      have hactive : ∀ kv, kv ∈ st.active_incidents.filter
          (fun kv => kv.1 != k) → kv ∈ st.active_incidents ∧ kv.2 ≠ i := by
        intro kv hkv
        obtain ⟨hm, hne⟩ := List.mem_filter.mp hkv
        refine ⟨hm, ?_⟩
        intro he
        have : kv = (k, i) :=
          List.inj_on_of_nodup_map hB hm hmemk (by simpa using he)
        rw [this] at hne
        simp at hne
      cases hf : (st.store.filter (fun r => !r.is_resolved)).find?
          (fun r => r.id == i) with
      | some inc =>
          rw [resolve_incident_eq_found halk hf]
          refine ⟨nodup_map_filter _ _ hA, nodup_map_filter _ _ hB, ?_, ?_⟩
          · dsimp only
            rw [updateFirst_map_id]
            · exact hC
            · intro x
              rfl
          · intro kv hkv r hr hid
            obtain ⟨hm, hne⟩ := hactive kv hkv
            rcases mem_updateFirst hr with ⟨r0, hr0, hid0, he⟩ | hmem
            · exfalso
              apply hne
              rw [← hid, he, ← hid0]
            · exact hD kv hm r hmem hid
      | none =>
          rw [resolve_incident_eq_missing halk hf]
          rw [updateFirst_eq_self (no_row_of_find_none hD halk hf)]
          refine ⟨nodup_map_filter _ _ hA, nodup_map_filter _ _ hB, hC, ?_⟩
          intro kv hkv r hr hid
          exact hD kv (hactive kv hkv).1 r hr hid

/-- Rows whose id is not the one registered under the closed key survive a
close untouched. -/
theorem resolve_frame {st : DetectorState} {t : Nat} {k : String}
    {r : IncidentRec} (hr : r ∈ st.store)
    (hcond : ∀ i, alookup st.active_incidents k = some i → r.id ≠ i) :
    r ∈ (resolve_incident st t k).store := by
  cases halk : alookup st.active_incidents k with
  | none =>
      rw [resolve_incident_eq_none halk]
      exact hr
  | some i =>
      have hne := hcond i halk
      cases hf : (st.store.filter (fun r => !r.is_resolved)).find?
          (fun r => r.id == i) with
      | some inc =>
          rw [resolve_incident_eq_found halk hf]
          exact mem_updateFirst_of_ne hr hne
      | none =>
          rw [resolve_incident_eq_missing halk hf]
          exact mem_updateFirst_of_ne hr hne

/-- After closing a registered key, every stored row carrying the registered
id is resolved. -/
theorem resolve_resolves {st : DetectorState} {t : Nat} {k : String} {i : Nat}
    (hwf : WellFormedIndex st)
    (halk : alookup st.active_incidents k = some i) :
    ∀ r ∈ (resolve_incident st t k).store, r.id = i → r.is_resolved = true := by
  obtain ⟨hA, hB, hC, hD⟩ := hwf
  cases hf : (st.store.filter (fun r => !r.is_resolved)).find?
      (fun r => r.id == i) with
  | some inc =>
      rw [resolve_incident_eq_found halk hf]
      intro r hr hid
      obtain ⟨r0, hr0, hid0, he⟩ := mem_updateFirst_of_id hC hr hid
      rw [he]
  | none =>
      rw [resolve_incident_eq_missing halk hf]
      rw [updateFirst_eq_self (no_row_of_find_none hD halk hf)]
      intro r hr hid
      exact absurd hid (no_row_of_find_none hD halk hf r hr)

/-- A close never un-resolves: rows already resolved at a given id stay so. -/
theorem resolve_preserves_resolved_at {st : DetectorState} {t : Nat}
    {k : String} {j : Nat}
    (h : ∀ r ∈ st.store, r.id = j → r.is_resolved = true) :
    ∀ r ∈ (resolve_incident st t k).store, r.id = j → r.is_resolved = true := by
  cases halk : alookup st.active_incidents k with
  | none =>
      rw [resolve_incident_eq_none halk]
      exact h
  | some i =>
      cases hf : (st.store.filter (fun r => !r.is_resolved)).find?
          (fun r => r.id == i) with
      | some inc =>
          rw [resolve_incident_eq_found halk hf]
          intro r hr hid
          rcases mem_updateFirst hr with ⟨r0, hr0, hid0, he⟩ | hm
          · rw [he]
          · exact h r hm hid
      | none =>
          rw [resolve_incident_eq_missing halk hf]
          intro r hr hid
          rcases mem_updateFirst hr with ⟨r0, hr0, hid0, he⟩ | hm
          · rw [he]
          · exact h r hm hid

/-- The invariant only weakens as the clock advances. -/
theorem inv_mono {t0 t : Nat} {st : DetectorState} (h : Inv t0 st)
    (hle : t0 ≤ t) : Inv t st := by
  obtain ⟨hwf, hkb, hrb, hst, hok⟩ := h
  exact ⟨hwf, hkb, hrb, fun r hr => le_trans (hst r hr) hle, hok⟩

/-- The fresh detector satisfies the invariant. -/
theorem inv_init : Inv 0 initialState := by
  refine ⟨⟨List.nodup_nil, List.nodup_nil, List.nodup_nil, ?_⟩, ?_, ?_, ?_, ?_⟩ <;>
    intro x hx <;> cases hx

/-- Open-or-continue preserves the invariant. -/
theorem inv_open {t0 : Nat} {st : DetectorState} (h : Inv t0 st) {t : Nat}
    (hle : t0 ≤ t) (d : Descriptor) : Inv t (process_incident st t d).1 := by
  obtain ⟨⟨hA, hB, hC, hD⟩, hkb, hrb, hst, hok⟩ := h
  cases halk : alookup st.active_incidents (incidentKey d) with
  | some i =>
      unfold process_incident
      rw [halk]
      exact inv_mono ⟨⟨hA, hB, hC, hD⟩, hkb, hrb, hst, hok⟩ hle
  | none =>
      unfold process_incident
      rw [halk]
      dsimp only
      have hknew := (alookup_eq_none st.active_incidents (incidentKey d)).mp halk
      refine ⟨⟨?_, ?_, ?_, ?_⟩, ?_, ?_, ?_, ?_⟩
      · rw [List.map_append]
        refine List.Nodup.append hA (List.nodup_singleton _) ?_
        intro x hx hx2
        simp at hx2
        exact hknew (hx2 ▸ hx)
      · rw [List.map_append]
        refine List.Nodup.append hB (List.nodup_singleton _) ?_
        intro x hx hx2
        simp at hx2
        rw [hx2] at hx
        obtain ⟨kv, hkv, hkv2⟩ := List.mem_map.mp hx
        exact absurd hkv2 (Nat.ne_of_lt (hkb kv hkv))
      · rw [List.map_append]
        refine List.Nodup.append hC (List.nodup_singleton _) ?_
        intro x hx hx2
        simp [newIncidentRec] at hx2
        rw [hx2] at hx
        obtain ⟨r, hr, hr2⟩ := List.mem_map.mp hx
        exact absurd hr2 (Nat.ne_of_lt (hrb r hr))
      · intro kv hkv r hr hid
        rcases List.mem_append.mp hkv with hkv1 | hkv1 <;>
          rcases List.mem_append.mp hr with hr1 | hr1
        · exact hD kv hkv1 r hr1 hid
        · simp at hr1
          rw [hr1] at hid
          exact absurd hid.symm (Nat.ne_of_lt (hkb kv hkv1))
        · simp at hkv1
          rw [hkv1] at hid
          exact absurd hid (Nat.ne_of_lt (hrb r hr1))
        · simp at hr1
          rw [hr1]
          rfl
      · intro kv hkv
        rcases List.mem_append.mp hkv with hkv1 | hkv1
        · exact Nat.lt_succ_of_lt (hkb kv hkv1)
        · simp at hkv1
          rw [hkv1]
          exact Nat.lt_succ_self _
      · intro r hr
        rcases List.mem_append.mp hr with hr1 | hr1
        · exact Nat.lt_succ_of_lt (hrb r hr1)
        · simp at hr1
          rw [hr1]
          exact Nat.lt_succ_self _
      · intro r hr
        rcases List.mem_append.mp hr with hr1 | hr1
        · exact le_trans (hst r hr1) hle
        · simp at hr1
          rw [hr1]
          exact le_refl _
      · intro r hr
        rcases List.mem_append.mp hr with hr1 | hr1
        · exact hok r hr1
        · simp at hr1
          rw [hr1]
          constructor
          · simp [newIncidentRec]
          · intro e dur he _
            simp [newIncidentRec] at he

/-- Close preserves the invariant. -/
theorem inv_close {t0 : Nat} {st : DetectorState} (h : Inv t0 st) {t : Nat}
    (hle : t0 ≤ t) (k : String) : Inv t (resolve_incident st t k) := by
  obtain ⟨hwf, hkb, hrb, hst, hok⟩ := h
  have hwf2 := wf_resolve hwf t k
  obtain ⟨hA, hB, hC, hD⟩ := hwf
  cases halk : alookup st.active_incidents k with
  | none =>
      rw [resolve_incident_eq_none halk]
      exact inv_mono ⟨⟨hA, hB, hC, hD⟩, hkb, hrb, hst, hok⟩ hle
  | some i =>
      cases hf : (st.store.filter (fun r => !r.is_resolved)).find?
          (fun r => r.id == i) with
      | some inc =>
          rw [resolve_incident_eq_found halk hf] at hwf2 ⊢
          have hinc_mem : inc ∈ st.store :=
            List.mem_of_mem_filter (List.mem_of_find?_eq_some hf)
          have hinc_id : inc.id = i := by
            have := List.find?_some hf
            simpa using this
          refine ⟨hwf2, ?_, ?_, ?_, ?_⟩
          · intro kv hkv
            exact hkb kv (List.mem_of_mem_filter hkv)
          · intro r hr
            rcases mem_updateFirst hr with ⟨r0, hr0, hid0, he⟩ | hm
            · rw [he]
              exact hrb r0 hr0
            · exact hrb r hm
          · intro r hr
            rcases mem_updateFirst hr with ⟨r0, hr0, hid0, he⟩ | hm
            · rw [he]
              exact le_trans (hst r0 hr0) hle
            · exact le_trans (hst r hm) hle
          · intro r hr
            rcases mem_updateFirst hr with ⟨r0, hr0, hid0, he⟩ | hm
            · have he0 : r0 = inc :=
                List.inj_on_of_nodup_map hC hr0 hinc_mem (by rw [hid0, hinc_id])
              rw [he, he0]
              constructor
              · simp
              · intro e dur hee hdd
                simp only [Option.some.injEq] at hee hdd
                subst hee
                subst hdd
                refine ⟨rfl, ?_⟩
                exact le_trans (hst inc hinc_mem) hle
            · exact hok r hm
      | none =>
          rw [resolve_incident_eq_missing halk hf] at hwf2 ⊢
          rw [updateFirst_eq_self (no_row_of_find_none hD halk hf)] at hwf2 ⊢
          refine ⟨hwf2, ?_, hrb, ?_, hok⟩
          · intro kv hkv
            exact hkb kv (List.mem_of_mem_filter hkv)
          · intro r hr
            exact le_trans (hst r hr) hle

/-- Retention cleanup preserves the invariant. -/
theorem inv_cleanup {t0 : Nat} {st : DetectorState} (h : Inv t0 st) {t : Nat}
    (hle : t0 ≤ t) (cutoff : Nat) : Inv t (cleanup_old_data st cutoff) := by
  obtain ⟨⟨hA, hB, hC, hD⟩, hkb, hrb, hst, hok⟩ := h
  unfold cleanup_old_data
  refine ⟨⟨hA, hB, nodup_map_filter _ _ hC, ?_⟩, hkb, ?_, ?_, ?_⟩
  · intro kv hkv r hr hid
    exact hD kv hkv r (List.mem_of_mem_filter hr) hid
  · intro r hr
    exact hrb r (List.mem_of_mem_filter hr)
  · intro r hr
    exact le_trans (hst r (List.mem_of_mem_filter hr)) hle
  · intro r hr
    exact hok r (List.mem_of_mem_filter hr)

/-- Folding close over any key list preserves the invariant. -/
theorem inv_fold_resolve {t : Nat} (ks : List String) :
    ∀ st : DetectorState, Inv t st →
      Inv t (ks.foldl (fun s k => resolve_incident s t k) st) := by
  induction ks with
  | nil => exact fun st h => h
  | cons k ks ih =>
      intro st h
      rw [List.foldl_cons]
      exact ih _ (inv_close h (le_refl t) k)

/-- Reconcile preserves the invariant. -/
theorem inv_reconcile {t0 : Nat} {st : DetectorState} (h : Inv t0 st)
    {t : Nat} (hle : t0 ≤ t) (cs : List (String × Bool)) :
    Inv t (check_and_resolve_incidents st t cs) := by
  unfold check_and_resolve_incidents
  exact inv_fold_resolve _ st (inv_mono h hle)

/-- Every reachable state satisfies the invariant. -/
theorem reach_inv {t : Nat} {st : DetectorState} (h : Reach t st) : Inv t st := by
  induction h with
  | init => exact inv_init
  | openStep t d _ hle ih => exact inv_open ih hle d
  | closeStep t k _ hle ih => exact inv_close ih hle k
  | reconcileStep t cs _ hle ih => exact inv_reconcile ih hle cs
  | cleanupStep t cutoff _ hle ih => exact inv_cleanup ih hle cutoff

/-- C2. Open/close pairing invariant: in every reachable state, a stored
incident is resolved exactly when both its end time and duration are set,
and then the duration is end minus start in whole seconds and never
negative. -/
theorem open_close_pairing_invariant (t : Nat) (st : DetectorState)
    (h : Reach t st) :
    ∀ r ∈ st.store,
      (r.is_resolved = true ↔ (r.end_time.isSome ∧ r.duration_seconds.isSome)) ∧
      (∀ e dur, r.end_time = some e → r.duration_seconds = some dur →
        dur = (e : Int) - (r.start_time : Int) ∧ 0 ≤ dur) := by
  intro r hr
  obtain ⟨_, _, _, _, hok⟩ := reach_inv h
  obtain ⟨h1, h2⟩ := hok r hr
  refine ⟨h1, ?_⟩
  intro e dur he hd
  obtain ⟨hd1, hd2⟩ := h2 e dur he hd
  refine ⟨hd1, ?_⟩
  rw [hd1]
  omega

/-- Witness for C2 on the concrete open-at-5/close-at-12 run: the stored row
is resolved with end time 12 and duration 7 = 12 − 5 ≥ 0. -/
theorem open_close_pairing_witness :
    (witRec.is_resolved = true ↔
      (witRec.end_time.isSome ∧ witRec.duration_seconds.isSome)) ∧
    ((7 : Int) = ((12 : Nat) : Int) - ((witRec.start_time : Nat) : Int) ∧
      (0 : Int) ≤ 7) := by
  have hreach : Reach 12 witSt :=
    Reach.closeStep 12 (incidentKey d0)
      (Reach.openStep 5 d0 Reach.init (by decide)) (by decide)
  have h := open_close_pairing_invariant 12 witSt hreach witRec (by decide)
  exact ⟨h.1, h.2 12 7 (by decide) (by decide)⟩

/-- Resolvedness of a given id is preserved by folding close over keys. -/
theorem fold_preserves_resolved (t : Nat) (ks : List String) (j : Nat) :
    ∀ st : DetectorState,
      (∀ r ∈ st.store, r.id = j → r.is_resolved = true) →
      ∀ r ∈ (ks.foldl (fun s k => resolve_incident s t k) st).store,
        r.id = j → r.is_resolved = true := by
  induction ks with
  | nil => exact fun st h => h
  | cons k ks ih =>
      intro st h
      rw [List.foldl_cons]
      exact ih _ (resolve_preserves_resolved_at h)

/-- Behaviour of folding close over a key list: the index keeps exactly the
keys outside the list, well-formedness is preserved, rows registered under a
listed key end resolved, and rows not registered under any listed key
survive untouched. -/
theorem fold_resolve_spec (t : Nat) (ks : List String) :
    ∀ st : DetectorState, WellFormedIndex st →
      (ks.foldl (fun s k => resolve_incident s t k) st).active_incidents
          = st.active_incidents.filter (fun kv => !(decide (kv.1 ∈ ks))) ∧
      WellFormedIndex (ks.foldl (fun s k => resolve_incident s t k) st) ∧
      (∀ kv ∈ st.active_incidents, kv.1 ∈ ks →
        ∀ r ∈ (ks.foldl (fun s k => resolve_incident s t k) st).store,
          r.id = kv.2 → r.is_resolved = true) ∧
      (∀ r ∈ st.store,
        (∀ kv ∈ st.active_incidents, r.id = kv.2 → kv.1 ∉ ks) →
        r ∈ (ks.foldl (fun s k => resolve_incident s t k) st).store) := by
  induction ks with
  | nil =>
      intro st hwf
      refine ⟨?_, hwf, ?_, ?_⟩
      · symm
        apply List.filter_eq_self.mpr
        intro kv _
        simp
      · intro kv _ hin
        simp at hin
      · intro r hr _
        exact hr
  | cons k ks ih =>
      intro st hwf
      have hwf1 : WellFormedIndex (resolve_incident st t k) := wf_resolve hwf t k
      obtain ⟨hA, hB, hC, hD⟩ := hwf
      obtain ⟨ihAct, ihWF, ihRes, ihFrame⟩ := ih (resolve_incident st t k) hwf1
      rw [List.foldl_cons]
      refine ⟨?_, ihWF, ?_, ?_⟩
      · rw [ihAct, resolve_active, List.filter_filter]
        apply List.filter_congr
        intro kv _
        by_cases h1 : kv.1 = k <;> by_cases h2 : kv.1 ∈ ks <;>
          simp [h1, h2]
      · intro kv hkv hin r hr hid
        by_cases hkk : kv.1 = k
        · have halk : alookup st.active_incidents k = some kv.2 := by
            rw [← hkk]
            exact alookup_of_mem hA hkv
          refine fold_preserves_resolved t ks kv.2 (resolve_incident st t k)
            ?_ r hr hid
          exact resolve_resolves ⟨hA, hB, hC, hD⟩ halk
        · have hin2 : kv.1 ∈ ks := by
            rcases List.mem_cons.mp hin with he | h2
            · exact absurd he hkk
            · exact h2
          have hkv1 : kv ∈ (resolve_incident st t k).active_incidents := by
            rw [resolve_active]
            exact List.mem_filter.mpr ⟨hkv, by simp [hkk]⟩
          exact ihRes kv hkv1 hin2 r hr hid
      · intro r hr hcond
        have hne : ∀ i, alookup st.active_incidents k = some i → r.id ≠ i := by
          intro i halk hid
          exact hcond (k, i) (alookup_mem halk) hid (List.mem_cons_self k ks)
        have hr1 : r ∈ (resolve_incident st t k).store := resolve_frame hr hne
        apply ihFrame r hr1
        intro kv hkv hid
        rw [resolve_active] at hkv
        have hkvSt : kv ∈ st.active_incidents := List.mem_of_mem_filter hkv
        exact fun hks => hcond kv hkvSt hid (List.mem_cons_of_mem _ hks)

/-- C5. Reconcile closes exactly the stale keys: afterwards the index equals
its restriction to the live keys, every incident registered under a stale
key is resolved in the store, and rows registered only under live keys are
untouched. -/
theorem reconcile_clears_exactly_stale (st : DetectorState)
    (hwf : WellFormedIndex st) (t : Nat) (cs : List (String × Bool)) :
    (check_and_resolve_incidents st t cs).active_incidents
        = st.active_incidents.filter (fun kv => isLive cs kv.1) ∧
    (∀ kv ∈ st.active_incidents, isLive cs kv.1 = false →
      ∀ r ∈ (check_and_resolve_incidents st t cs).store,
        r.id = kv.2 → r.is_resolved = true) ∧
    (∀ r ∈ st.store,
      (∀ kv ∈ st.active_incidents, r.id = kv.2 → isLive cs kv.1 = true) →
      r ∈ (check_and_resolve_incidents st t cs).store) := by
  have hdef : check_and_resolve_incidents st t cs =
      ((st.active_incidents.map Prod.fst).filter
        (fun k => !isLive cs k)).foldl
        (fun s k => resolve_incident s t k) st := rfl
  obtain ⟨hAct, hWF, hRes, hFrame⟩ :=
    fold_resolve_spec t
      ((st.active_incidents.map Prod.fst).filter (fun k => !isLive cs k))
      st hwf
  refine ⟨?_, ?_, ?_⟩
  · rw [hdef, hAct]
    apply List.filter_congr
    intro kv hkv
    have h1 : kv.1 ∈ st.active_incidents.map Prod.fst :=
      List.mem_map_of_mem Prod.fst hkv
    by_cases hl : isLive cs kv.1
    · simp [List.mem_filter, hl]
    · simp [List.mem_filter, h1, hl]
  · intro kv hkv hlive r hr hid
    rw [hdef] at hr
    refine hRes kv hkv ?_ r hr hid
    exact List.mem_filter.mpr ⟨List.mem_map_of_mem Prod.fst hkv, by simp [hlive]⟩
  · intro r hr hcond
    rw [hdef]
    apply hFrame r hr
    intro kv hkv hid hin
    have h2 := (List.mem_filter.mp hin).2
    rw [hcond kv hkv hid] at h2
    simp at h2

/-- Witness for C5 at the spec scenario: open keys A, B, C with live set
containing only B; the index afterwards is exactly the B entry, and the A
row is closed. -/
theorem reconcile_clears_witness :
    (check_and_resolve_incidents c5st 20 c5live).active_incidents
        = c5st.active_incidents.filter (fun kv => isLive c5live kv.1) ∧
    c5recA.is_resolved = true := by
  have h := reconcile_clears_exactly_stale c5st (by decide) 20 c5live
  refine ⟨h.1, ?_⟩
  exact h.2.1 (incidentKey c5dA, 0) (by decide) (by decide) c5recA
    (by decide) (by decide)

/-- The truthiness loop, with accumulator made explicit. -/
theorem truthyDurations_aux (l : List IncidentRec) :
    ∀ acc : List Int,
      l.foldl
        (fun ds r =>
          match r.duration_seconds with
          | some d => if d = 0 then ds else ds ++ [d]
          | none => ds) acc
      = acc ++ (l.filterMap (fun r => r.duration_seconds)).filter
          (fun d => !(d == 0)) := by
  induction l with
  | nil => intro acc; simp
  | cons r tl ih =>
      intro acc
      rw [List.foldl_cons]
      cases hd : r.duration_seconds with
      | none => simp [hd, ih, List.filterMap_cons]
      | some d =>
          by_cases h0 : d = 0
          · simp [hd, h0, ih, List.filterMap_cons]
          · simp [hd, h0, ih, List.filterMap_cons, List.append_assoc]

/-- The `durations` list is the non-null durations with the zeros dropped. -/
theorem truthyDurations_eq (l : List IncidentRec) :
    truthyDurations l
      = (l.filterMap (fun r => r.duration_seconds)).filter
          (fun d => !(d == 0)) := by
  unfold truthyDurations
  rw [truthyDurations_aux]
  simp

/-- Dropping zeros does not change an integer sum. -/
theorem sum_filter_ne_zero (ds : List Int) :
    (ds.filter (fun d => !(d == 0))).sum = ds.sum := by
  induction ds with
  | nil => rfl
  | cons d tl ih =>
      by_cases h0 : d = 0
      · simp [List.filter_cons, h0, ih]
      · simp [List.filter_cons, h0, ih]

/-- Under the pairing discipline, an unresolved row has no duration. -/
theorem unresolved_dur_none {r : IncidentRec}
    (hiff : r.is_resolved = true ↔ r.duration_seconds.isSome)
    (hres : r.is_resolved = false) : r.duration_seconds = none := by
  cases hd : r.duration_seconds with
  | none => rfl
  | some d =>
      have : r.is_resolved = true := hiff.mpr (by simp [hd])
      rw [this] at hres
      cases hres

/-- Under the pairing discipline, restricting to resolved rows loses no
duration. -/
theorem filterMap_dur_resolved (l : List IncidentRec)
    (h : ∀ r ∈ l, r.is_resolved = true ↔ r.duration_seconds.isSome) :
    (l.filter (fun r => r.is_resolved)).filterMap
        (fun r => r.duration_seconds)
      = l.filterMap (fun r => r.duration_seconds) := by
  induction l with
  | nil => rfl
  | cons r tl ih =>
      have hr := h r (List.mem_cons_self r tl)
      have ih2 := ih (fun x hx => h x (List.mem_cons_of_mem _ hx))
      cases hres : r.is_resolved with
      | true =>
          cases hd : r.duration_seconds <;>
            simp [List.filter_cons, hres, List.filterMap_cons, hd, ih2]
      | false =>
          have hdn := unresolved_dur_none hr hres
          simp [List.filter_cons, hres, List.filterMap_cons, hdn, ih2]

/-- The rows that actually contribute to the code's average are exactly the
resolved rows with a nonzero duration: their durations and their count match
the truthiness-filtered duration list. -/
theorem contrib_spec (l : List IncidentRec)
    (h : ∀ r ∈ l, r.is_resolved = true ↔ r.duration_seconds.isSome) :
    ((l.filter (fun r => r.is_resolved
          && decide (r.duration_seconds ≠ some (0 : Int)))).filterMap
        (fun r => r.duration_seconds)
      = (l.filterMap (fun r => r.duration_seconds)).filter
          (fun d => !(d == 0))) ∧
    (l.filter (fun r => r.is_resolved
        && decide (r.duration_seconds ≠ some (0 : Int)))).length
      = ((l.filterMap (fun r => r.duration_seconds)).filter
          (fun d => !(d == 0))).length := by
  induction l with
  | nil => exact ⟨rfl, rfl⟩
  | cons r tl ih =>
      have hr := h r (List.mem_cons_self r tl)
      obtain ⟨ih1, ih2⟩ := ih (fun x hx => h x (List.mem_cons_of_mem _ hx))
      simp only [ne_eq, decide_not] at ih1 ih2
      cases hres : r.is_resolved with
      | false =>
          have hdn := unresolved_dur_none hr hres
          constructor <;>
            simp [List.filter_cons, List.filterMap_cons, hres, hdn, ih1, ih2]
      | true =>
          have hds : r.duration_seconds.isSome = true := hr.mp hres
          obtain ⟨d, hd⟩ := Option.isSome_iff_exists.mp hds
          by_cases h0 : d = 0
          · subst h0
            constructor <;>
              simp [List.filter_cons, List.filterMap_cons, hres, hd, ih1, ih2]
          · constructor <;>
              simp [List.filter_cons, List.filterMap_cons, hres, hd, h0, ih1, ih2]

/-- The code's total downtime is the sum of the truthy durations in range. -/
theorem analyze_total_eq (store : List IncidentRec) (a b : Nat) :
    (analyze_incident_patterns store a b).total_downtime_seconds
      = (truthyDurations (get_incidents store a b)).sum := by
  unfold analyze_incident_patterns
  cases hg : get_incidents store a b with
  | nil => simp [truthyDurations]
  | cons x xs => simp

/-- The code's average duration is the average of the truthy durations in
range, 0 when there are none. -/
theorem analyze_avg_eq (store : List IncidentRec) (a b : Nat) :
    (analyze_incident_patterns store a b).avg_duration_seconds
      = (if (truthyDurations (get_incidents store a b)).isEmpty then 0
         else (((truthyDurations (get_incidents store a b)).sum : Int) : Rat)
           / (((truthyDurations (get_incidents store a b)).length : Nat) : Rat)) := by
  unfold analyze_incident_patterns
  cases hg : get_incidents store a b with
  | nil => simp [truthyDurations]
  | cons x xs => simp

/-- Rows in a query result come from the store. -/
theorem mem_get_incidents {r : IncidentRec} {store : List IncidentRec}
    {a b : Nat} (h : r ∈ get_incidents store a b) : r ∈ store := by
  unfold get_incidents at h
  have h2 := (List.perm_insertionSort _ _).mem_iff.mp h
  exact List.mem_of_mem_filter (List.mem_of_mem_filter h2)

/-- Lists of equal length are simultaneously empty. -/
theorem isEmpty_eq_of_length_eq {α β : Type} {l1 : List α} {l2 : List β}
    (h : l1.length = l2.length) : l1.isEmpty = l2.isEmpty := by
  cases l1 <;> cases l2 <;> simp_all

/-- C8 amended. Under the pairing discipline (resolved iff duration
non-null), the total downtime is the sum over exactly the resolved incidents
in range, while the average is over exactly the resolved incidents with a
nonzero duration (a resolved incident of duration 0 is excluded from the
average by truthiness); both exclude unresolved incidents. -/
theorem duration_aggregates_amended (store : List IncidentRec) (a b : Nat)
    (hres : ∀ r ∈ store,
      r.is_resolved = true ↔ r.duration_seconds.isSome) :
    (analyze_incident_patterns store a b).total_downtime_seconds
      = (((get_incidents store a b).filter (fun r => r.is_resolved)).filterMap
          (fun r => r.duration_seconds)).sum ∧
    (analyze_incident_patterns store a b).avg_duration_seconds
      = (if ((get_incidents store a b).filter
            (fun r => r.is_resolved
              && decide (r.duration_seconds ≠ some (0 : Int)))).isEmpty
         then 0
         else (((((get_incidents store a b).filter
                (fun r => r.is_resolved
                  && decide (r.duration_seconds ≠ some (0 : Int)))).filterMap
                (fun r => r.duration_seconds)).sum : Int) : Rat)
           / ((((get_incidents store a b).filter
                (fun r => r.is_resolved
                  && decide (r.duration_seconds ≠ some (0 : Int)))).length
                : Nat) : Rat)) := by
  have hresIn : ∀ r ∈ get_incidents store a b,
      r.is_resolved = true ↔ r.duration_seconds.isSome :=
    fun r hr => hres r (mem_get_incidents hr)
  obtain ⟨hc1, hc2⟩ := contrib_spec (get_incidents store a b) hresIn
  constructor
  · rw [analyze_total_eq, truthyDurations_eq, sum_filter_ne_zero,
      filterMap_dur_resolved _ hresIn]
  · rw [analyze_avg_eq, truthyDurations_eq, hc1, hc2,
      isEmpty_eq_of_length_eq hc2]

/-- Witness for the amended C8 on the concrete two-incident store. -/
theorem duration_aggregates_amended_witness :
    (analyze_incident_patterns c8st.store 0 100).total_downtime_seconds
      = (((get_incidents c8st.store 0 100).filter (fun r => r.is_resolved)).filterMap
          (fun r => r.duration_seconds)).sum ∧
    (analyze_incident_patterns c8st.store 0 100).avg_duration_seconds
      = (if ((get_incidents c8st.store 0 100).filter
            (fun r => r.is_resolved
              && decide (r.duration_seconds ≠ some (0 : Int)))).isEmpty
         then 0
         else (((((get_incidents c8st.store 0 100).filter
                (fun r => r.is_resolved
                  && decide (r.duration_seconds ≠ some (0 : Int)))).filterMap
                (fun r => r.duration_seconds)).sum : Int) : Rat)
           / ((((get_incidents c8st.store 0 100).filter
                (fun r => r.is_resolved
                  && decide (r.duration_seconds ≠ some (0 : Int)))).length
                : Nat) : Rat)) :=
  duration_aggregates_amended c8st.store 0 100 (by decide)

end NetMon
